import Mathlib

/-!
Shallow embedding of `src/lib.rs` of the `vst-rs-example-iced` plugin
(the `Whisper` noise synthesizer with an iced GUI), together with proofs
about its note-gate counter, parameter store, audio processing and the
editor lifecycle.

Modelling conventions:
* `f32` values are idealized as `ℚ`; the one place a value is formatted
  (`format!("\x7b:.3\x7d", volume)`) is rendered by a decimal formatter on `ℚ`.
* The `u8` field `notes` is a `Nat` kept below 256; the Rust operators
  `+= 1u8` and `-= 1u8` are release-mode wrapping arithmetic, embedded as
  explicit `% 256` (addition of `255` modulo `256` is the wrapping
  decrement; in a debug build the same overflow panics instead).
* The random number generator `rand::random::<f32>()`, which draws from
  `[0, 1)`, is an explicit oracle `rng : Nat → ℚ` consumed in draw order.
* The generator-based GUI event loop is an explicit state machine with one
  suspension point per resume, exactly mirroring the `yield` placement in
  the source closure; ghost counters (`acquired`, `released`, `resumes`)
  instrument native resource acquisition/release and generator resumes so
  that the spec's accounting properties can be stated.
-/

/-- Model of `vst::event::Event` as consumed by `process_events`: a MIDI
event carries its three data bytes (each below 256); the other variants
(`SysEx`, `Deprecated`) carry nothing the plugin inspects. -/
inductive VstEvent where
  | midi (data0 data1 data2 : Nat)
  | sysEx
  | deprecated
deriving DecidableEq, Repr

/-- One step of `process_events` for a single event: `match ev.data[0]`
with `144 => self.notes += 1u8`, `128 => self.notes -= 1u8`, otherwise no
change; non-MIDI events are ignored. The `u8` arithmetic is wrapping
modulo 256 (adding 255 is the wrapping decrement). -/
def stepEvent (notes : Nat) : VstEvent → Nat
  | .midi d0 _ _ =>
      if d0 = 144 then (notes + 1) % 256
      else if d0 = 128 then (notes + 255) % 256
      else notes
  | _ => notes

/-- `Whisper::process_events`: fold the delivered batch over the note
counter in arrival order (`for event in events.events()`). -/
def processEvents (notes : Nat) (events : List VstEvent) : Nat :=
  events.foldl stepEvent notes

/-- An event whose first byte is 144 (note-on, channel 0). -/
def isNoteOn : VstEvent → Bool
  | .midi d0 _ _ => d0 == 144
  | _ => false

/-- An event whose first byte is 128 (note-off, channel 0). -/
def isNoteOff : VstEvent → Bool
  | .midi d0 _ _ => d0 == 128
  | _ => false

/-- Number of note-on events in a batch. -/
def countOn (events : List VstEvent) : Nat := events.countP isNoteOn

/-- Number of note-off events in a batch. -/
def countOff (events : List VstEvent) : Nat := events.countP isNoteOff

/-- Modelled from the spec: the gate-counter value the spec claims after a
processed prefix, `max(0, #note-on − #note-off)`, written with `Int`
subtraction truncated to `Nat`. Compared against `processEvents`, which is
the source's behaviour. -/
def specGateCount (events : List VstEvent) : Nat :=
  ((countOn events : Int) - (countOff events : Int)).toNat

/-- `WhisperParameters`: the shared parameter block; its one field is the
`AtomicFloat` volume, idealized as `ℚ`. -/
structure WhisperParameters where
  volume : ℚ
deriving DecidableEq

/-- `Default for WhisperParameters`: volume starts at `1.0`. -/
def WhisperParameters.default : WhisperParameters := { volume := 1 }

/-- `PluginParameters::get_parameter`: index 0 reads the volume, any other
index returns `0.0`. -/
def get_parameter (p : WhisperParameters) (index : Int) : ℚ :=
  if index = 0 then p.volume else 0

/-- `PluginParameters::set_parameter`: index 0 stores the given value
unchanged (no clamping), any other index does nothing. -/
def set_parameter (p : WhisperParameters) (index : Int) (value : ℚ) :
    WhisperParameters :=
  if index = 0 then { p with volume := value } else p

/-- `PluginParameters::get_parameter_label`: `"x"` at index 0, the empty
string elsewhere. -/
def get_parameter_label (index : Int) : String :=
  if index = 0 then "x" else ""

/-- `PluginParameters::get_parameter_name`: `"volume"` at index 0, the
empty string elsewhere. -/
def get_parameter_name (index : Int) : String :=
  if index = 0 then "volume" else ""

/-- Decimal rendering of `format!("\x7b:.3\x7d", q)` idealized over `ℚ`: the
value scaled by 1000 and rounded, printed with three fractional digits.
No claim depends on the in-range formatting, only on the out-of-range
branch of `get_parameter_text` returning the empty string. -/
def formatQ3 (q : ℚ) : String :=
  let scaled : Int := round (q * 1000)
  let n : Nat := scaled.natAbs
  let frac : Nat := n % 1000
  let pad : String := if frac < 10 then "00" else if frac < 100 then "0" else ""
  (if scaled < 0 then "-" else "") ++ toString (n / 1000) ++ "." ++ pad ++ toString frac

/-- `PluginParameters::get_parameter_text`: the formatted volume at index
0, `format!("")` (the empty string) elsewhere. -/
def get_parameter_text (p : WhisperParameters) (index : Int) : String :=
  if index = 0 then formatQ3 p.volume else ""

/-- The `Whisper` plugin state visible to `process`: the shared parameter
block and the `u8` note counter. -/
structure Whisper where
  params : WhisperParameters
  notes : Nat
deriving DecidableEq

/-- The inner sample loop of `Whisper::process` in the note-held branch:
each sample of a channel becomes `(random::<f32>() - 0.5) * 2.0 * volume`,
drawing rng values in order starting at draw index `k`. -/
def writeNoise (volume : ℚ) (rng : Nat → ℚ) : Nat → List ℚ → List ℚ
  | _, [] => []
  | k, _ :: rest => ((rng k - 1/2) * 2 * volume) :: writeNoise volume rng (k + 1) rest

/-- The outer channel loop of `Whisper::process` in the note-held branch:
channels are filled one after the other, the rng draw index advancing past
each channel written. -/
def writeChannels (volume : ℚ) (rng : Nat → ℚ) : Nat → List (List ℚ) → List (List ℚ)
  | _, [] => []
  | k, ch :: rest => writeNoise volume rng k ch :: writeChannels volume rng (k + ch.length) rest

/-- `Whisper::process`: when `notes == 0` every sample of every output
channel is overwritten with `0.0` and the call returns; otherwise the
volume is read once from the shared store and every sample is overwritten
with scaled noise. The output buffer is a list of channels. -/
def process (w : Whisper) (rng : Nat → ℚ) (buffer : List (List ℚ)) : List (List ℚ) :=
  if w.notes = 0 then buffer.map (fun ch => ch.map (fun _ => (0 : ℚ)))
  else writeChannels w.params.volume rng 0 buffer

/-- The suspension points of the generator in `GUI::new`: `created` is the
generator built but never resumed (nothing acquired yet — `open` does not
resume it); `running closed` is suspended at a `yield`, holding the native
resources (window, surface, device), with `closed` the flag set by an
observed `CloseRequested` event. -/
inductive DriverState where
  | created
  | running (closed : Bool)
deriving DecidableEq, Repr

/-- Result of one `Generator::resume` call. -/
inductive ResumeOutcome where
  | suspendedAt (d : DriverState)
  | completed
  | panicked
deriving DecidableEq, Repr

/-- One resume together with how many native resource bundles it acquired
and released (ghost accounting). -/
structure ResumeStep where
  outcome : ResumeOutcome
  acquires : Nat
  releases : Nat
deriving DecidableEq, Repr

/-- One `Generator::resume` of the `GUI::new` closure. `acquireOk` says
whether native acquisition (window build, adapter request) succeeds;
`closeRequested` whether this tick's event drain observes a
`CloseRequested` window event.
* From `created`: run the whole setup to the first `yield`; on success one
  resource bundle is acquired, on failure the `unwrap`/`expect` panics
  (anything partially acquired is dropped during unwinding, so no bundle
  is retained).
* From `running false`: one `while` iteration drains events (possibly
  setting `closed`), renders, and suspends at the `yield` at the loop end.
* From `running true`: the `while !closed` condition fails, the generator
  returns, dropping its locals — the resources are released on this very
  resume — and the outcome is `completed`. -/
def GUI.resume (acquireOk closeRequested : Bool) : DriverState → ResumeStep
  | .created =>
      if acquireOk then ⟨.suspendedAt (.running false), 1, 0⟩
      else ⟨.panicked, 0, 0⟩
  | .running false => ⟨.suspendedAt (.running closeRequested), 0, 0⟩
  | .running true => ⟨.completed, 0, 1⟩

/-- `GUIWrapper`: the editor installed by `get_editor`. `inner` is the
`Option<GUI>` session slot; `acquired`, `released` and `resumes` are ghost
counters of native resource bundles acquired, bundles released, and
generator resumes performed (not fields of the source struct). -/
structure GUIWrapper where
  inner : Option DriverState
  acquired : Nat
  released : Nat
  resumes : Nat
deriving DecidableEq, Repr

/-- The editor as `get_editor` creates it: `inner: None`, ghost counters
zero. -/
def GUIWrapper.initial : GUIWrapper := ⟨none, 0, 0, 0⟩

/-- Resources released when a session slot is dropped (assignment or
`close`): a suspended running generator drops its live locals, releasing
its bundle; a never-resumed generator holds nothing; an empty slot
releases nothing. -/
def droppedResources : Option DriverState → Nat
  | some (.running _) => 1
  | _ => 0

/-- `Editor::open`: builds `GUI::new(parent, params)` — which only
constructs the boxed generator, acquiring no native resource and never
failing — stores it with `self.inner = Some(gui)` (dropping any previous
session), and returns `true` unconditionally. -/
def GUIWrapper.openEditor (w : GUIWrapper) : Bool × GUIWrapper :=
  (true,
    { inner := some .created
      acquired := w.acquired
      released := w.released + droppedResources w.inner
      resumes := w.resumes })

/-- `Editor::close`: `self.inner = None`, dropping any session. -/
def GUIWrapper.closeEditor (w : GUIWrapper) : GUIWrapper :=
  { w with inner := none, released := w.released + droppedResources w.inner }

/-- `Editor::is_open`: whether a session is installed. -/
def GUIWrapper.is_open (w : GUIWrapper) : Bool := w.inner.isSome

/-- `Editor::idle`: if no session exists, do nothing; otherwise resume the
generator exactly once, discard the session when the resume completes, and
keep the suspended session otherwise. A panicking resume propagates out of
`idle` (modelled as `Except.error`). -/
def GUIWrapper.idle (acquireOk closeRequested : Bool) (w : GUIWrapper) :
    Except Unit GUIWrapper :=
  match w.inner with
  | none => .ok w
  | some d =>
      let step := GUI.resume acquireOk closeRequested d
      match step.outcome with
      | .suspendedAt d2 =>
          .ok { inner := some d2
                acquired := w.acquired + step.acquires
                released := w.released + step.releases
                resumes := w.resumes + 1 }
      | .completed =>
          .ok { inner := none
                acquired := w.acquired + step.acquires
                released := w.released + step.releases
                resumes := w.resumes + 1 }
      | .panicked => .error ()

/-- Number of resource-holding sessions currently alive inside the
editor. -/
def liveResources (w : GUIWrapper) : Nat := droppedResources w.inner

/-- Resource accounting is one-to-one: everything acquired has either been
released or is held by the live session. -/
def resourceBalanced (w : GUIWrapper) : Prop :=
  w.acquired = w.released + liveResources w

/-- The messages of the iced `Program` implementation. -/
inductive Message where
  | volumeChanged (v : ℚ)
deriving DecidableEq

/-- `WhisperGUI`: the iced application model; it shares the parameter
block (the slider widget state carries no plugin data and is omitted). -/
structure WhisperGUI where
  params : WhisperParameters
deriving DecidableEq

/-- `Program::update` for `WhisperGUI`: `VolumeChanged(v)` writes `v` into
the shared store via `self.params.volume.set(v)`. The slider that emits
this message is built with range `0.0..=1.0`. -/
def WhisperGUI.update (g : WhisperGUI) (m : Message) : WhisperGUI :=
  match m with
  | .volumeChanged v => { g with params := { g.params with volume := v } }

lemma stepEvent_lt (n : Nat) (hn : n < 256) (e : VstEvent) : stepEvent n e < 256 := by
  cases e with
  | midi d0 d1 d2 =>
      simp only [stepEvent]
      split
      · exact Nat.mod_lt _ (by omega)
      · split
        · exact Nat.mod_lt _ (by omega)
        · exact hn
  | sysEx => exact hn
  | deprecated => exact hn

lemma processEvents_wrap (es : List VstEvent) : ∀ n : Nat, n < 256 →
    processEvents n es = (n + countOn es + 255 * countOff es) % 256 := by
  induction es with
  | nil =>
      intro n hn
      simp only [processEvents, List.foldl_nil, countOn, countOff, List.countP_nil]
      omega
  | cons e es ih =>
      intro n hn
      have hstep : processEvents n (e :: es) = processEvents (stepEvent n e) es := rfl
      rw [hstep, ih (stepEvent n e) (stepEvent_lt n hn e)]
      cases e with
      | midi d0 d1 d2 =>
          by_cases h144 : d0 = 144
          · subst h144
            simp [stepEvent, countOn, countOff, List.countP_cons, isNoteOn, isNoteOff]
            omega
          · by_cases h128 : d0 = 128
            · subst h128
              simp [stepEvent, countOn, countOff, List.countP_cons, isNoteOn, isNoteOff]
              omega
            · simp [stepEvent, h144, h128, countOn, countOff, List.countP_cons,
                isNoteOn, isNoteOff]
      | sysEx =>
          simp [stepEvent, countOn, countOff, List.countP_cons, isNoteOn, isNoteOff]
      | deprecated =>
          simp [stepEvent, countOn, countOff, List.countP_cons, isNoteOn, isNoteOff]

/-- C1 counterexample: a single note-off delivered when the counter is zero
does not saturate at zero — the `u8` decrement wraps, leaving the counter
at 255, which differs from the claimed `max(0, #note-on − #note-off) = 0`
(and the same underflow panics in a debug build). -/
theorem C1_counterexample :
    processEvents 0 [VstEvent.midi 128 60 100] = 255 ∧
    specGateCount [VstEvent.midi 128 60 100] = 0 ∧
    processEvents 0 [VstEvent.midi 128 60 100] ≠ specGateCount [VstEvent.midi 128 60 100] := by
  decide

/-- C1 (amended): after processing any event sequence from a counter below
256, the note-gate counter equals the wrapping `u8` value
`(start + #note-on + 255 · #note-off) mod 256`; it never saturates at
zero — a surplus note-off wraps the counter around instead. -/
theorem C1_gate_counter_wraps (n : Nat) (es : List VstEvent) (hn : n < 256) :
    processEvents n es = (n + countOn es + 255 * countOff es) % 256 :=
  processEvents_wrap es n hn

/-- C1 witness: the amended formula evaluated on a concrete batch of one
note-on followed by two note-offs, starting from a counter of 3. -/
theorem C1_gate_counter_wraps_witness :
    processEvents 3 [VstEvent.midi 144 60 100, VstEvent.midi 128 60 100, VstEvent.midi 128 61 99] =
      (3 + countOn [VstEvent.midi 144 60 100, VstEvent.midi 128 60 100, VstEvent.midi 128 61 99] +
        255 * countOff [VstEvent.midi 144 60 100, VstEvent.midi 128 60 100, VstEvent.midi 128 61 99]) % 256 :=
  C1_gate_counter_wraps 3 _ (by omega)

/-- C4: for every parameter index other than 0, `get_parameter` returns
`0.0` and the label, text and name accessors return the empty string; each
accessor is a total match with a benign default arm, so no call faults. -/
theorem C4_out_of_range_defaults (p : WhisperParameters) (index : Int) (h : index ≠ 0) :
    get_parameter p index = 0 ∧ get_parameter_label index = "" ∧
    get_parameter_text p index = "" ∧ get_parameter_name index = "" := by
  simp [get_parameter, get_parameter_label, get_parameter_text, get_parameter_name, h]

/-- C4 witness: the defaults observed at the concrete out-of-range index 1
on the freshly instantiated parameter block. -/
theorem C4_out_of_range_defaults_witness :
    get_parameter WhisperParameters.default 1 = 0 ∧ get_parameter_label 1 = "" ∧
    get_parameter_text WhisperParameters.default 1 = "" ∧ get_parameter_name 1 = "" :=
  C4_out_of_range_defaults WhisperParameters.default 1 (by decide)

/-- C5: event delivery folds the batch over the counter in arrival order
and dispatches on the first byte only: 144 performs the `u8` increment
(`+1 mod 256`, equal to `n + 1` away from the wrap point), 128 performs
the `u8` decrement (`+255 mod 256`, equal to `n − 1` whenever the counter
is positive), every other first byte and every non-MIDI event leaves the
counter unchanged. -/
theorem C5_event_dispatch (n d1 d2 : Nat) (es : List VstEvent) :
    processEvents n es = es.foldl stepEvent n ∧
    stepEvent n (VstEvent.midi 144 d1 d2) = (n + 1) % 256 ∧
    stepEvent n (VstEvent.midi 128 d1 d2) = (n + 255) % 256 ∧
    (n + 1 < 256 → stepEvent n (VstEvent.midi 144 d1 d2) = n + 1) ∧
    (0 < n → n < 256 → stepEvent n (VstEvent.midi 128 d1 d2) = n - 1) ∧
    (∀ d0, d0 ≠ 144 → d0 ≠ 128 → stepEvent n (VstEvent.midi d0 d1 d2) = n) ∧
    stepEvent n VstEvent.sysEx = n ∧
    stepEvent n VstEvent.deprecated = n := by
  refine ⟨rfl, by simp [stepEvent], by simp [stepEvent], ?_, ?_, ?_, rfl, rfl⟩
  · intro hlt
    show (n + 1) % 256 = n + 1
    omega
  · intro hpos hlt
    show (n + 255) % 256 = n - 1
    omega
  · intro d0 h1 h2
    simp [stepEvent, h1, h2]

lemma noise_sample_bounds (v r : ℚ) (hv : 0 ≤ v) (hr0 : 0 ≤ r) (hr1 : r < 1) :
    -v ≤ (r - 1/2) * 2 * v ∧ (r - 1/2) * 2 * v ≤ v := by
  constructor <;> nlinarith

lemma writeNoise_bounds (v : ℚ) (rng : Nat → ℚ) (hv : 0 ≤ v)
    (hrng : ∀ k, 0 ≤ rng k ∧ rng k < 1) :
    ∀ (k : Nat) (ch : List ℚ), ∀ s ∈ writeNoise v rng k ch, -v ≤ s ∧ s ≤ v := by
  intro k ch
  induction ch generalizing k with
  | nil => intro s hs; simp [writeNoise] at hs
  | cons a rest ih =>
      intro s hs
      simp only [writeNoise, List.mem_cons] at hs
      rcases hs with rfl | hs
      · exact noise_sample_bounds v (rng k) hv (hrng k).1 (hrng k).2
      · exact ih (k + 1) s hs

lemma writeChannels_bounds (v : ℚ) (rng : Nat → ℚ) (hv : 0 ≤ v)
    (hrng : ∀ k, 0 ≤ rng k ∧ rng k < 1) :
    ∀ (k : Nat) (buf : List (List ℚ)), ∀ ch ∈ writeChannels v rng k buf,
      ∀ s ∈ ch, -v ≤ s ∧ s ≤ v := by
  intro k buf
  induction buf generalizing k with
  | nil => intro ch hch; simp [writeChannels] at hch
  | cons c rest ih =>
      intro ch hch
      simp only [writeChannels, List.mem_cons] at hch
      rcases hch with rfl | hch
      · exact writeNoise_bounds v rng hv hrng k c
      · exact ih (k + c.length) ch hch

/-- C3: when the note-gate counter is zero, `process` overwrites every
sample of every channel of the output buffer — whatever its shape and
whatever the stored parameter value — with exactly `0.0`. -/
theorem C3_silence_when_gate_zero (w : Whisper) (rng : Nat → ℚ) (buffer : List (List ℚ))
    (h : w.notes = 0) :
    process w rng buffer = buffer.map (fun ch => ch.map (fun _ => (0 : ℚ))) ∧
    ∀ ch ∈ process w rng buffer, ∀ s ∈ ch, s = 0 := by
  have hm : process w rng buffer = buffer.map (fun ch => ch.map (fun _ => (0 : ℚ))) := by
    simp [process, h]
  refine ⟨hm, ?_⟩
  intro ch hch s hs
  rw [hm] at hch
  rcases List.mem_map.mp hch with ⟨ch0, _, rfl⟩
  rcases List.mem_map.mp hs with ⟨s0, _, rfl⟩
  rfl

/-- C3 witness: silence written over a concrete two-channel buffer of
unequal prior contents, with a nonzero stored volume and a nontrivial
rng stream. -/
theorem C3_silence_when_gate_zero_witness :
    process ⟨⟨3/4⟩, 0⟩ (fun _ => 1/2) [[5, 7], [9]] =
      [[5, 7], [9]].map (fun ch => ch.map (fun _ => (0 : ℚ))) :=
  (C3_silence_when_gate_zero ⟨⟨3/4⟩, 0⟩ (fun _ => 1/2) [[5, 7], [9]] rfl).1

/-- C6 counterexample: the claim fails for a stored volume outside
`[0, 1]`, which `set_parameter` admits: with stored volume `−1` (written
by the host), a held note and an rng draw of `0`, the written sample is
`1`, which does not lie in the closed interval `[−volume, +volume] =
[1, −1]`. -/
theorem C6_counterexample :
    (set_parameter WhisperParameters.default 0 (-1)).volume = -1 ∧
    process ⟨set_parameter WhisperParameters.default 0 (-1), 1⟩ (fun _ => 0) [[0]] = [[1]] ∧
    ¬(-((set_parameter WhisperParameters.default 0 (-1)).volume) ≤ 1 ∧
      (1 : ℚ) ≤ (set_parameter WhisperParameters.default 0 (-1)).volume) := by
  refine ⟨by norm_num [set_parameter, WhisperParameters.default], ?_, ?_⟩
  · norm_num [process, set_parameter, WhisperParameters.default, writeChannels, writeNoise]
  · norm_num [set_parameter, WhisperParameters.default]

/-- C6 (amended): when the note-gate counter is nonzero, every sample
written by `process` lies within `[−volume, +volume]`, with the volume
read once at the start of the call, provided that stored volume is
nonnegative (which `set_parameter` does not itself enforce) and that every
rng draw lies in `[0, 1)` (the contract of `random::<f32>()`). -/
theorem C6_noise_bounded (w : Whisper) (rng : Nat → ℚ) (buffer : List (List ℚ))
    (hrng : ∀ k, 0 ≤ rng k ∧ rng k < 1) (hv : 0 ≤ w.params.volume) (hn : w.notes ≠ 0) :
    ∀ ch ∈ process w rng buffer, ∀ s ∈ ch, -w.params.volume ≤ s ∧ s ≤ w.params.volume := by
  intro ch hch
  simp only [process, if_neg hn] at hch
  exact writeChannels_bounds w.params.volume rng hv hrng 0 buffer ch hch

/-- C6 witness: with stored volume `3/4`, two held notes and the constant
rng stream `1/2`, the concrete written sample `0` lies within
`[−3/4, 3/4]`. -/
theorem C6_noise_bounded_witness :
    -(3/4 : ℚ) ≤ 0 ∧ (0 : ℚ) ≤ 3/4 := by
  refine C6_noise_bounded ⟨⟨3/4⟩, 2⟩ (fun _ => 1/2) [[0]] ?_ ?_ ?_ [0] ?_ 0 ?_
  · intro k; norm_num
  · norm_num
  · norm_num
  · norm_num [process, writeChannels, writeNoise]
  · norm_num

/-- C7 counterexample: `set_parameter` stores the host-supplied value
without clamping, so a host write of `2.0` leaves the stored volume
outside the claimed closed range `[0, 1]`. -/
theorem C7_counterexample :
    (set_parameter WhisperParameters.default 0 2).volume = 2 ∧
    ¬((set_parameter WhisperParameters.default 0 2).volume ≤ 1) := by
  norm_num [set_parameter, WhisperParameters.default]

/-- C7 (amended): the stored volume is `1.0 ∈ [0, 1]` at instantiation;
`set_parameter` and the GUI slider update keep it within `[0, 1]` exactly
when the written value lies in `[0, 1]` — the slider guarantees this by
its `0.0..=1.0` range, but `set_parameter` performs no clamping, so the
invariant is conditional on the host staying in range. -/
theorem C7_volume_range (p : WhisperParameters) (g : WhisperGUI) (i : Int) (v : ℚ)
    (hp : 0 ≤ p.volume ∧ p.volume ≤ 1) (hv : 0 ≤ v ∧ v ≤ 1) :
    (0 ≤ WhisperParameters.default.volume ∧ WhisperParameters.default.volume ≤ 1) ∧
    (0 ≤ (set_parameter p i v).volume ∧ (set_parameter p i v).volume ≤ 1) ∧
    (0 ≤ (WhisperGUI.update g (Message.volumeChanged v)).params.volume ∧
      (WhisperGUI.update g (Message.volumeChanged v)).params.volume ≤ 1) := by
  refine ⟨by norm_num [WhisperParameters.default], ?_, ?_⟩
  · unfold set_parameter
    split
    · exact hv
    · exact hp
  · exact hv

/-- C7 witness: the amended range facts at the concrete write `1/2`
through both the host path and the GUI path, starting from the default
block. -/
theorem C7_volume_range_witness :
    (0 ≤ WhisperParameters.default.volume ∧ WhisperParameters.default.volume ≤ 1) ∧
    (0 ≤ (set_parameter WhisperParameters.default 0 (1/2)).volume ∧
      (set_parameter WhisperParameters.default 0 (1/2)).volume ≤ 1) ∧
    (0 ≤ (WhisperGUI.update ⟨WhisperParameters.default⟩ (Message.volumeChanged (1/2))).params.volume ∧
      (WhisperGUI.update ⟨WhisperParameters.default⟩ (Message.volumeChanged (1/2))).params.volume ≤ 1) :=
  C7_volume_range WhisperParameters.default ⟨WhisperParameters.default⟩ 0 (1/2)
    (by norm_num [WhisperParameters.default]) (by norm_num)

lemma droppedResources_le_one (o : Option DriverState) : droppedResources o ≤ 1 := by
  rcases o with _ | (_ | cl)
  · exact Nat.zero_le 1
  · exact Nat.zero_le 1
  · exact Nat.le_refl 1

lemma idle_balanced (a c : Bool) (w w2 : GUIWrapper) (h : resourceBalanced w)
    (hok : GUIWrapper.idle a c w = .ok w2) : resourceBalanced w2 := by
  obtain ⟨inner, acq, rel, res⟩ := w
  cases inner with
  | none =>
      have h2 : (Except.ok (⟨none, acq, rel, res⟩ : GUIWrapper) : Except Unit GUIWrapper) =
          .ok w2 := hok
      injection h2 with h3
      subst h3
      exact h
  | some d =>
      cases d with
      | created =>
          cases a with
          | false =>
              have h2 : (Except.error () : Except Unit GUIWrapper) = .ok w2 := hok
              exact Except.noConfusion h2
          | true =>
              have h2 : (Except.ok (⟨some (DriverState.running false), acq + 1, rel, res + 1⟩ :
                  GUIWrapper) : Except Unit GUIWrapper) = .ok w2 := hok
              injection h2 with h3
              subst h3
              have h4 : acq = rel := h
              show acq + 1 = rel + 1
              omega
      | running cl =>
          cases cl with
          | false =>
              have h2 : (Except.ok (⟨some (DriverState.running c), acq, rel, res + 1⟩ :
                  GUIWrapper) : Except Unit GUIWrapper) = .ok w2 := hok
              injection h2 with h3
              subst h3
              have h4 : acq = rel + 1 := h
              show acq = rel + 1
              omega
          | true =>
              have h2 : (Except.ok (⟨none, acq, rel + 1, res + 1⟩ :
                  GUIWrapper) : Except Unit GUIWrapper) = .ok w2 := hok
              injection h2 with h3
              subst h3
              have h4 : acq = rel + 1 := h
              show acq = rel + 1
              omega

/-- C2 counterexample: even in an environment in which native resource
acquisition would fail (acquisition is attempted only by `idle`, never by
`open`), `open` on the fresh editor returns `true`, installs a session,
reports the editor as open — and has acquired nothing at all during the
call, since `GUI::new` merely builds the suspended generator. This
contradicts the claim that a failed acquisition makes `open` return
`false` with no session installed. -/
theorem C2_counterexample :
    (GUIWrapper.initial.openEditor).1 = true ∧
    (GUIWrapper.initial.openEditor).2.inner = some DriverState.created ∧
    GUIWrapper.is_open (GUIWrapper.initial.openEditor).2 = true ∧
    (GUIWrapper.initial.openEditor).2.acquired = 0 :=
  ⟨rfl, rfl, rfl, rfl⟩

/-- C2 (amended): `open` never reports failure — it returns `true` and
installs a never-resumed session unconditionally, acquiring no native
resource during the call; acquisition is deferred to the first `idle`
resume, and when it fails there the resume panics out of `idle`
(`unwrap`/`expect`) instead of being surfaced as a boolean failure. -/
theorem C2_open_never_fails (w w2 : GUIWrapper) (c : Bool) :
    (w.openEditor).1 = true ∧
    (w.openEditor).2.inner = some DriverState.created ∧
    (w.openEditor).2.acquired = w.acquired ∧
    (w2.inner = some DriverState.created → GUIWrapper.idle false c w2 = .error ()) := by
  refine ⟨rfl, rfl, rfl, ?_⟩
  intro h
  obtain ⟨inner, acq, rel, res⟩ := w2
  have h3 : inner = some DriverState.created := h
  subst h3
  rfl

/-- C8: each `idle` call resumes the session at most once — it is a no-op
with no session, performs exactly one resume when a session exists, and on
the resume that completes (the generator returning after a close request)
it releases the resource bundle exactly once, discards the session, and
every subsequent `idle` in any environment is a no-op until the next
`open`. -/
theorem C8_idle_single_resume (a c : Bool) (w : GUIWrapper) :
    (w.inner = none → GUIWrapper.idle a c w = .ok w) ∧
    (∀ w2, GUIWrapper.idle a c w = .ok w2 → w2.resumes ≤ w.resumes + 1) ∧
    (∀ d w2, w.inner = some d → GUIWrapper.idle a c w = .ok w2 →
      w2.resumes = w.resumes + 1) ∧
    (w.inner = some (DriverState.running true) →
      GUIWrapper.idle a c w =
        .ok { inner := none, acquired := w.acquired, released := w.released + 1,
              resumes := w.resumes + 1 } ∧
      ∀ a2 c2, GUIWrapper.idle a2 c2
          { inner := none, acquired := w.acquired, released := w.released + 1,
            resumes := w.resumes + 1 } =
        .ok { inner := none, acquired := w.acquired, released := w.released + 1,
              resumes := w.resumes + 1 }) := by
  obtain ⟨inner, acq, rel, res⟩ := w
  cases inner with
  | none =>
      refine ⟨fun _ => rfl, ?_, ?_, ?_⟩
      · intro w2 h
        have h2 : (Except.ok (⟨none, acq, rel, res⟩ : GUIWrapper) :
            Except Unit GUIWrapper) = .ok w2 := h
        injection h2 with h3
        subst h3
        exact Nat.le_succ res
      · intro d' w2 hd h
        exact Option.noConfusion hd
      · intro hd
        exact Option.noConfusion hd
  | some d =>
      cases d with
      | created =>
          cases a with
          | false =>
              refine ⟨fun h => Option.noConfusion h, ?_, ?_, ?_⟩
              · intro w2 h
                have h2 : (Except.error () : Except Unit GUIWrapper) = .ok w2 := h
                exact Except.noConfusion h2
              · intro d' w2 hd h
                have h2 : (Except.error () : Except Unit GUIWrapper) = .ok w2 := h
                exact Except.noConfusion h2
              · intro hd
                injection hd with h3
                exact DriverState.noConfusion h3
          | true =>
              refine ⟨fun h => Option.noConfusion h, ?_, ?_, ?_⟩
              · intro w2 h
                have h2 : (Except.ok (⟨some (DriverState.running false), acq + 1, rel,
                    res + 1⟩ : GUIWrapper) : Except Unit GUIWrapper) = .ok w2 := h
                injection h2 with h3
                subst h3
                exact Nat.le_refl _
              · intro d' w2 hd h
                have h2 : (Except.ok (⟨some (DriverState.running false), acq + 1, rel,
                    res + 1⟩ : GUIWrapper) : Except Unit GUIWrapper) = .ok w2 := h
                injection h2 with h3
                subst h3
                rfl
              · intro hd
                injection hd with h3
                exact DriverState.noConfusion h3
      | running cl =>
          cases cl with
          | false =>
              refine ⟨fun h => Option.noConfusion h, ?_, ?_, ?_⟩
              · intro w2 h
                have h2 : (Except.ok (⟨some (DriverState.running c), acq, rel,
                    res + 1⟩ : GUIWrapper) : Except Unit GUIWrapper) = .ok w2 := h
                injection h2 with h3
                subst h3
                exact Nat.le_refl _
              · intro d' w2 hd h
                have h2 : (Except.ok (⟨some (DriverState.running c), acq, rel,
                    res + 1⟩ : GUIWrapper) : Except Unit GUIWrapper) = .ok w2 := h
                injection h2 with h3
                subst h3
                rfl
              · intro hd
                injection hd with h3
                injection h3 with h4
                exact Bool.noConfusion h4
          | true =>
              refine ⟨fun h => Option.noConfusion h, ?_, ?_, ?_⟩
              · intro w2 h
                have h2 : (Except.ok (⟨none, acq, rel + 1, res + 1⟩ : GUIWrapper) :
                    Except Unit GUIWrapper) = .ok w2 := h
                injection h2 with h3
                subst h3
                exact Nat.le_refl _
              · intro d' w2 hd h
                have h2 : (Except.ok (⟨none, acq, rel + 1, res + 1⟩ : GUIWrapper) :
                    Except Unit GUIWrapper) = .ok w2 := h
                injection h2 with h3
                subst h3
                rfl
              · intro _
                exact ⟨rfl, fun a2 c2 => rfl⟩

/-- C9: at most one session is ever alive (the slot holds at most one
resource bundle); `open`, `close` and every successful `idle` preserve the
one-to-one acquisition/release accounting; opening over an existing
session tears the prior one down within the call, so after `open` → `open`
only the fresh session exists, and after `open` → `idle` (which acquires
the resources) → `open` the second session is the only one alive with
acquisition and release counts matching exactly. -/
theorem C9_no_session_leak (c : Bool) (w : GUIWrapper) (h : resourceBalanced w) :
    liveResources w ≤ 1 ∧
    resourceBalanced (w.openEditor).2 ∧
    resourceBalanced w.closeEditor ∧
    (∀ a c2 w2, GUIWrapper.idle a c2 w = .ok w2 → resourceBalanced w2) ∧
    ((w.openEditor).2.openEditor).2.inner = some DriverState.created ∧
    resourceBalanced ((w.openEditor).2.openEditor).2 ∧
    GUIWrapper.idle true c (w.openEditor).2 =
      .ok { inner := some (DriverState.running false), acquired := w.acquired + 1,
            released := w.released + droppedResources w.inner, resumes := w.resumes + 1 } ∧
    (({ inner := some (DriverState.running false), acquired := w.acquired + 1,
        released := w.released + droppedResources w.inner,
        resumes := w.resumes + 1 } : GUIWrapper).openEditor).2.inner =
      some DriverState.created ∧
    (({ inner := some (DriverState.running false), acquired := w.acquired + 1,
        released := w.released + droppedResources w.inner,
        resumes := w.resumes + 1 } : GUIWrapper).openEditor).2.acquired =
      (({ inner := some (DriverState.running false), acquired := w.acquired + 1,
          released := w.released + droppedResources w.inner,
          resumes := w.resumes + 1 } : GUIWrapper).openEditor).2.released := by
  have h4 : w.acquired = w.released + droppedResources w.inner := h
  refine ⟨droppedResources_le_one w.inner, h, h, ?_, rfl, h, rfl, rfl, ?_⟩
  · intro a c2 w2 hok
    exact idle_balanced a c2 w w2 h hok
  · show w.acquired + 1 = w.released + droppedResources w.inner + 1
    omega

/-- C9 witness: the whole property evaluated from the fresh editor —
after `open`, one resource-acquiring `idle`, and a second `open`, the
surviving session is the freshly created one and the acquisition count
equals the release count. -/
theorem C9_no_session_leak_witness :
    liveResources GUIWrapper.initial ≤ 1 ∧
    resourceBalanced (GUIWrapper.initial.openEditor).2 ∧
    resourceBalanced GUIWrapper.initial.closeEditor ∧
    (∀ a c2 w2, GUIWrapper.idle a c2 GUIWrapper.initial = .ok w2 → resourceBalanced w2) ∧
    ((GUIWrapper.initial.openEditor).2.openEditor).2.inner = some DriverState.created ∧
    resourceBalanced ((GUIWrapper.initial.openEditor).2.openEditor).2 ∧
    GUIWrapper.idle true false (GUIWrapper.initial.openEditor).2 =
      .ok { inner := some (DriverState.running false), acquired := 1, released := 0,
            resumes := 1 } ∧
    (({ inner := some (DriverState.running false), acquired := 1, released := 0,
        resumes := 1 } : GUIWrapper).openEditor).2.inner = some DriverState.created ∧
    (({ inner := some (DriverState.running false), acquired := 1, released := 0,
        resumes := 1 } : GUIWrapper).openEditor).2.acquired =
      (({ inner := some (DriverState.running false), acquired := 1, released := 0,
          resumes := 1 } : GUIWrapper).openEditor).2.released :=
  C9_no_session_leak false GUIWrapper.initial rfl
